import Mathlib

/-!
Verification of the colour-science library fragment: domain/range scaling,
the sRGB and SMPTE 240M transfer-function codecs, the yellowness formulas
and dispatcher, the colourspace dataset matrices, and the
optional-dependency probes.

Real-valued code is embedded over `ℝ` (transfer functions, which use real
powers) and `ℚ` (linear/ratio formulas and matrices, which are exact
rational arithmetic).  The ambient domain/range scaling mode is passed as
an explicit parameter.
-/

namespace Colour

/-- Modelled from the spec: the process-wide scaling mode enumeration
{Reference, Normalized1, Normalized100} plus the internal pass-through
mode "ignore" used by nested sub-calls (`domain_range_scale("ignore")`). -/
inductive ScalingMode where
  | reference : ScalingMode
  | one : ScalingMode
  | hundred : ScalingMode
  | ignoreMode : ScalingMode
deriving DecidableEq, Repr

/-- Modelled from the spec: `to_domain_1` for formulas whose reference
domain width is 1 (transfer functions).  Reference, Normalized1 and
ignore are the identity; Normalized100 scales by 1/100 on the way in. -/
def to_domain_1 {α : Type} [Field α] (m : ScalingMode) (x : α) : α :=
  match m with
  | ScalingMode.hundred => x / 100
  | _ => x

/-- Modelled from the spec: `from_range_1`, the output counterpart of
`to_domain_1`; Normalized100 scales by 100 on the way out. -/
def from_range_1 {α : Type} [Field α] (m : ScalingMode) (x : α) : α :=
  match m with
  | ScalingMode.hundred => x * 100
  | _ => x

/-- Modelled from the spec: `to_domain_100` for formulas whose reference
domain width is 100 (tristimulus-scale formulas).  Normalized1 multiplies
by the domain width 100 on the way in; Reference, Normalized100 and
ignore are the identity. -/
def to_domain_100 {α : Type} [Field α] (m : ScalingMode) (x : α) : α :=
  match m with
  | ScalingMode.one => x * 100
  | _ => x

/-- Modelled from the spec: `from_range_100`, the output counterpart of
`to_domain_100`; Normalized1 divides by 100 on the way out. -/
def from_range_100 {α : Type} [Field α] (m : ScalingMode) (x : α) : α :=
  match m with
  | ScalingMode.one => x / 100
  | _ => x

/-- Modelled from the spec: the signed power operation of
`colour.algebra`, `spow(x, e) = sign(x) * |x| ** e`. -/
noncomputable def spow (x e : ℝ) : ℝ :=
  Real.sign x * |x| ^ e

/-- The *IEC 61966-2-1:1999* sRGB inverse electro-optical transfer
function of `srgb.py`: domain scaling, then the piecewise map branching
at `L ≤ 0.0031308`, then range scaling. -/
noncomputable def eotf_inverse_sRGB (m : ScalingMode) (L : ℝ) : ℝ :=
  let L' := to_domain_1 m L
  let V := if L' ≤ 0.0031308 then L' * 12.92 else 1.055 * spow L' (1 / 2.4) - 0.055
  from_range_1 m V

/-- The *IEC 61966-2-1:1999* sRGB electro-optical transfer function of
`srgb.py`: compares the signal against `eotf_inverse_sRGB(0.0031308)`
evaluated with scaling forced to pass-through. -/
noncomputable def eotf_sRGB (m : ScalingMode) (V : ℝ) : ℝ :=
  let V' := to_domain_1 m V
  let L :=
    if eotf_inverse_sRGB ScalingMode.ignoreMode 0.0031308 ≥ V' then V' / 12.92
    else spow ((V' + 0.055) / 1.055) 2.4
  from_range_1 m L

/-- The *SMPTE 240M* opto-electrical transfer function of
`smpte_240m.py`, branching at `L_c < 0.0228`. -/
noncomputable def oetf_SMPTE240M (m : ScalingMode) (L_c : ℝ) : ℝ :=
  let L := to_domain_1 m L_c
  let V_c := if L < 0.0228 then 4 * L else 1.1115 * spow L 0.45 - 0.1115
  from_range_1 m V_c

/-- The *SMPTE 240M* electro-optical transfer function of
`smpte_240m.py`: compares the signal against `oetf_SMPTE240M(0.0228)`
evaluated with scaling forced to pass-through. -/
noncomputable def eotf_SMPTE240M (m : ScalingMode) (V_r : ℝ) : ℝ :=
  let V := to_domain_1 m V_r
  let L_r :=
    if V < oetf_SMPTE240M ScalingMode.ignoreMode 0.0228 then V / 4
    else spow ((V + 0.1115) / 1.1115) (1 / 0.45)
  from_range_1 m L_r

lemma spow_of_pos {x : ℝ} (hx : 0 < x) (e : ℝ) : spow x e = x ^ e := by
  rw [spow, Real.sign_of_pos hx, abs_of_pos hx, one_mul]

lemma eotf_inverse_sRGB_ref_of_le {L : ℝ} (h : L ≤ 0.0031308) :
    eotf_inverse_sRGB ScalingMode.reference L = L * 12.92 := by
  simp [eotf_inverse_sRGB, to_domain_1, from_range_1, h]

lemma eotf_inverse_sRGB_ref_of_gt {L : ℝ} (h : 0.0031308 < L) :
    eotf_inverse_sRGB ScalingMode.reference L = 1.055 * spow L (1 / 2.4) - 0.055 := by
  simp [eotf_inverse_sRGB, to_domain_1, from_range_1, not_le.mpr h]

lemma srgb_thr : eotf_inverse_sRGB ScalingMode.ignoreMode 0.0031308 = 0.040449936 := by
  rw [show eotf_inverse_sRGB ScalingMode.ignoreMode 0.0031308
      = eotf_inverse_sRGB ScalingMode.reference 0.0031308 from rfl,
    eotf_inverse_sRGB_ref_of_le le_rfl]
  norm_num

lemma eotf_sRGB_ref_of_le {V : ℝ} (h : V ≤ 0.040449936) :
    eotf_sRGB ScalingMode.reference V = V / 12.92 := by
  have h' : eotf_inverse_sRGB ScalingMode.ignoreMode 0.0031308 ≥ V := by
    rw [srgb_thr]; exact h
  simp [eotf_sRGB, to_domain_1, from_range_1, h']

lemma eotf_sRGB_ref_of_gt {V : ℝ} (h : 0.040449936 < V) :
    eotf_sRGB ScalingMode.reference V = spow ((V + 0.055) / 1.055) 2.4 := by
  have h' : ¬ eotf_inverse_sRGB ScalingMode.ignoreMode 0.0031308 ≥ V := by
    rw [srgb_thr]; exact not_le.mpr h
  simp [eotf_sRGB, to_domain_1, from_range_1, h']

lemma srgb_power_inverse {L : ℝ} (h : 0 < L) :
    spow ((1.055 * spow L (1 / 2.4) - 0.055 + 0.055) / 1.055) 2.4 = L := by
  have h24 : (1 / 2.4 : ℝ) = 5 / 12 := by norm_num
  rw [spow_of_pos h, h24]
  have ht : (0 : ℝ) < L ^ ((5 : ℝ) / 12) := Real.rpow_pos_of_pos h _
  have harg : (1.055 * L ^ ((5 : ℝ) / 12) - 0.055 + 0.055) / 1.055 = L ^ ((5 : ℝ) / 12) := by
    ring
  rw [harg, spow_of_pos ht, show (2.4 : ℝ) = 12 / 5 by norm_num,
    ← Real.rpow_mul h.le]
  norm_num

/-- C1: the sRGB inverse EOTF branches at `L ≤ 0.0031308` between the
linear segment `12.92·L` and the power segment `1.055·spow(L, 1/2.4) −
0.055`; the sRGB EOTF branches at the signal value
`eotf_inverse_sRGB(0.0031308)` between `V/12.92` and
`spow((V + 0.055)/1.055, 2.4)`; the linear branch pair composes to the
identity, the power branch algebraically inverts the forward power
branch on its domain, and `spow` is the sign-preserving power
`sign(x)·|x|^e`. -/
theorem srgb_branches_and_inverses :
    (∀ L : ℝ, L ≤ 0.0031308 →
      eotf_inverse_sRGB ScalingMode.reference L = 12.92 * L) ∧
    (∀ L : ℝ, 0.0031308 < L →
      eotf_inverse_sRGB ScalingMode.reference L = 1.055 * spow L (1 / 2.4) - 0.055) ∧
    (∀ V : ℝ, V ≤ eotf_inverse_sRGB ScalingMode.ignoreMode 0.0031308 →
      eotf_sRGB ScalingMode.reference V = V / 12.92) ∧
    (∀ V : ℝ, eotf_inverse_sRGB ScalingMode.ignoreMode 0.0031308 < V →
      eotf_sRGB ScalingMode.reference V = spow ((V + 0.055) / 1.055) 2.4) ∧
    (∀ L : ℝ, L ≤ 0.0031308 →
      eotf_sRGB ScalingMode.reference (eotf_inverse_sRGB ScalingMode.reference L) = L) ∧
    (∀ L : ℝ, 0 < L →
      spow ((1.055 * spow L (1 / 2.4) - 0.055 + 0.055) / 1.055) 2.4 = L) ∧
    (∀ x e : ℝ, spow x e = Real.sign x * |x| ^ e) := by
  refine ⟨fun L h => ?_, fun L h => eotf_inverse_sRGB_ref_of_gt h,
    fun V h => ?_, fun V h => ?_, fun L h => ?_,
    fun L h => srgb_power_inverse h, fun x e => rfl⟩
  · rw [eotf_inverse_sRGB_ref_of_le h]; ring
  · exact eotf_sRGB_ref_of_le (by rw [srgb_thr] at h; exact h)
  · exact eotf_sRGB_ref_of_gt (by rw [srgb_thr] at h; exact h)
  · rw [eotf_inverse_sRGB_ref_of_le h,
      eotf_sRGB_ref_of_le (by nlinarith : L * 12.92 ≤ 0.040449936)]
    ring

/-- Witness for C1 at concrete inputs. -/
theorem srgb_branches_and_inverses_witness :
    eotf_inverse_sRGB ScalingMode.reference 0.001 = 12.92 * 0.001 ∧
    eotf_sRGB ScalingMode.reference 0.01 = 0.01 / 12.92 ∧
    eotf_sRGB ScalingMode.reference (eotf_inverse_sRGB ScalingMode.reference 0.002) = 0.002 :=
  ⟨srgb_branches_and_inverses.1 0.001 (by norm_num),
   srgb_branches_and_inverses.2.2.1 0.01 (by rw [srgb_thr]; norm_num),
   srgb_branches_and_inverses.2.2.2.2.1 0.002 (by norm_num)⟩

lemma oetf_SMPTE240M_ref_of_lt {L : ℝ} (h : L < 0.0228) :
    oetf_SMPTE240M ScalingMode.reference L = 4 * L := by
  simp [oetf_SMPTE240M, to_domain_1, from_range_1, h]

lemma oetf_SMPTE240M_ref_of_ge {L : ℝ} (h : 0.0228 ≤ L) :
    oetf_SMPTE240M ScalingMode.reference L = 1.1115 * spow L 0.45 - 0.1115 := by
  simp [oetf_SMPTE240M, to_domain_1, from_range_1, not_lt.mpr h]

lemma smpte_thr : oetf_SMPTE240M ScalingMode.ignoreMode 0.0228
    = 1.1115 * (0.0228 : ℝ) ^ ((9 : ℝ) / 20) - 0.1115 := by
  rw [show oetf_SMPTE240M ScalingMode.ignoreMode 0.0228
      = oetf_SMPTE240M ScalingMode.reference 0.0228 from rfl,
    oetf_SMPTE240M_ref_of_ge le_rfl, spow_of_pos (by norm_num : (0:ℝ) < 0.0228),
    show (0.45 : ℝ) = 9 / 20 by norm_num]

/-- The SMPTE 240M breakpoint strictly exceeds `4·0.0228 = 0.0912`:
`0.0228^(9/20) > 0.2027/1.1115`, checked by raising both sides to the
20th power. -/
lemma smpte_thr_gt : (0.0912 : ℝ) < oetf_SMPTE240M ScalingMode.ignoreMode 0.0228 := by
  rw [smpte_thr]
  have h0 : (0 : ℝ) < 0.0228 := by norm_num
  have hd : (0.2027 / 1.1115 : ℝ) < (0.0228 : ℝ) ^ ((9 : ℝ) / 20) := by
    have hpow : ((0.0228 : ℝ) ^ ((9 : ℝ) / 20)) ^ (20 : ℕ) = (0.0228 : ℝ) ^ (9 : ℕ) := by
      rw [← Real.rpow_natCast ((0.0228 : ℝ) ^ ((9 : ℝ) / 20)) 20,
        ← Real.rpow_mul h0.le]
      norm_num [Real.rpow_natCast]
    have hlt : ((0.2027 / 1.1115 : ℝ)) ^ (20 : ℕ) < ((0.0228 : ℝ) ^ ((9 : ℝ) / 20)) ^ (20 : ℕ) := by
      rw [hpow]; norm_num
    exact lt_of_pow_lt_pow_left₀ 20 (Real.rpow_nonneg h0.le _) hlt
  nlinarith [hd]

lemma eotf_SMPTE240M_ref_of_lt {V : ℝ}
    (h : V < oetf_SMPTE240M ScalingMode.ignoreMode 0.0228) :
    eotf_SMPTE240M ScalingMode.reference V = V / 4 := by
  simp [eotf_SMPTE240M, to_domain_1, from_range_1, h]

lemma eotf_SMPTE240M_ref_of_ge {V : ℝ}
    (h : oetf_SMPTE240M ScalingMode.ignoreMode 0.0228 ≤ V) :
    eotf_SMPTE240M ScalingMode.reference V = spow ((V + 0.1115) / 1.1115) (1 / 0.45) := by
  simp [eotf_SMPTE240M, to_domain_1, from_range_1, not_lt.mpr h]

lemma smpte_power_inverse {L : ℝ} (h : 0 < L) :
    spow ((1.1115 * spow L 0.45 - 0.1115 + 0.1115) / 1.1115) (1 / 0.45) = L := by
  have h45 : (0.45 : ℝ) = 9 / 20 := by norm_num
  rw [spow_of_pos h, h45]
  have ht : (0 : ℝ) < L ^ ((9 : ℝ) / 20) := Real.rpow_pos_of_pos h _
  have harg : (1.1115 * L ^ ((9 : ℝ) / 20) - 0.1115 + 0.1115) / 1.1115 = L ^ ((9 : ℝ) / 20) := by
    ring
  rw [harg, spow_of_pos ht, show (1 / ((9 : ℝ) / 20) : ℝ) = 20 / 9 by norm_num,
    ← Real.rpow_mul h.le]
  norm_num

/-- C2: the SMPTE 240M OETF branches at `L_c < 0.0228` between `4·L_c`
and `1.1115·spow(L_c, 0.45) − 0.1115`; the EOTF compares the signal
against the pass-through-evaluated breakpoint `oetf_SMPTE240M(0.0228)`,
returning `V_r/4` below it and `spow((V_r + 0.1115)/1.1115, 1/0.45)` at
or above it; each EOTF branch inverts the corresponding OETF branch. -/
theorem smpte240m_branches_and_inverses :
    (∀ L_c : ℝ, L_c < 0.0228 →
      oetf_SMPTE240M ScalingMode.reference L_c = 4 * L_c) ∧
    (∀ L_c : ℝ, 0.0228 ≤ L_c →
      oetf_SMPTE240M ScalingMode.reference L_c = 1.1115 * spow L_c 0.45 - 0.1115) ∧
    (∀ V_r : ℝ, V_r < oetf_SMPTE240M ScalingMode.ignoreMode 0.0228 →
      eotf_SMPTE240M ScalingMode.reference V_r = V_r / 4) ∧
    (∀ V_r : ℝ, oetf_SMPTE240M ScalingMode.ignoreMode 0.0228 ≤ V_r →
      eotf_SMPTE240M ScalingMode.reference V_r = spow ((V_r + 0.1115) / 1.1115) (1 / 0.45)) ∧
    (∀ L_c : ℝ, L_c < 0.0228 →
      eotf_SMPTE240M ScalingMode.reference (oetf_SMPTE240M ScalingMode.reference L_c) = L_c) ∧
    (∀ L_c : ℝ, 0 < L_c →
      spow ((1.1115 * spow L_c 0.45 - 0.1115 + 0.1115) / 1.1115) (1 / 0.45) = L_c) := by
  refine ⟨fun L h => oetf_SMPTE240M_ref_of_lt h, fun L h => oetf_SMPTE240M_ref_of_ge h,
    fun V h => eotf_SMPTE240M_ref_of_lt h, fun V h => eotf_SMPTE240M_ref_of_ge h,
    fun L h => ?_, fun L h => smpte_power_inverse h⟩
  rw [oetf_SMPTE240M_ref_of_lt h,
    eotf_SMPTE240M_ref_of_lt (lt_of_le_of_lt (by nlinarith) smpte_thr_gt)]
  ring

/-- Witness for C2 at concrete inputs. -/
theorem smpte240m_branches_and_inverses_witness :
    oetf_SMPTE240M ScalingMode.reference 0.01 = 4 * 0.01 ∧
    eotf_SMPTE240M ScalingMode.reference 0.05 = 0.05 / 4 ∧
    eotf_SMPTE240M ScalingMode.reference (oetf_SMPTE240M ScalingMode.reference 0.01) = 0.01 :=
  ⟨smpte240m_branches_and_inverses.1 0.01 (by norm_num),
   smpte240m_branches_and_inverses.2.2.1 0.05
     (lt_trans (by norm_num) smpte_thr_gt),
   smpte240m_branches_and_inverses.2.2.2.2.1 0.01 (by norm_num)⟩

lemma rpow_five_twelfths_pow_twelve {L : ℝ} (h : 0 ≤ L) :
    (L ^ ((5 : ℝ) / 12)) ^ (12 : ℕ) = L ^ (5 : ℕ) := by
  rw [← Real.rpow_natCast (L ^ ((5 : ℝ) / 12)) 12, ← Real.rpow_mul h,
    show ((5 : ℝ) / 12) * ((12 : ℕ) : ℝ) = ((5 : ℕ) : ℝ) by norm_num,
    Real.rpow_natCast]

/-- sRGB round trip within `1e-7` on `(0,1)`.  The two branch routings
are exact inverses except on the sliver `(0.0031308, 0.00313081]` where
the encoded signal falls at or below the linear threshold
`12.92·0.0031308` (the published constants do not meet exactly); there
the error is bounded by explicit rational bounds on `L^(5/12)`. -/
lemma srgb_roundtrip {L : ℝ} (h0 : 0 < L) (h1 : L < 1) :
    |eotf_sRGB ScalingMode.reference (eotf_inverse_sRGB ScalingMode.reference L) - L|
      ≤ 1e-7 := by
  by_cases hc : L ≤ 0.0031308
  · rw [eotf_inverse_sRGB_ref_of_le hc,
      eotf_sRGB_ref_of_le (by nlinarith : L * 12.92 ≤ 0.040449936)]
    have hz : L * 12.92 / 12.92 - L = 0 := by ring
    rw [hz]; norm_num
  · push_neg at hc
    rw [eotf_inverse_sRGB_ref_of_gt hc]
    by_cases hV : 1.055 * spow L (1 / 2.4) - 0.055 ≤ 0.040449936
    · rw [eotf_sRGB_ref_of_le hV]
      rw [spow_of_pos h0, show (1 / 2.4 : ℝ) = 5 / 12 by norm_num] at hV ⊢
      have ht : (0 : ℝ) < L ^ ((5 : ℝ) / 12) := Real.rpow_pos_of_pos h0 _
      have hq : (0.09047384 : ℝ) ≤ L ^ ((5 : ℝ) / 12) := by
        have hx : (0.0031308 : ℝ) ^ ((5 : ℝ) / 12) ≤ L ^ ((5 : ℝ) / 12) :=
          Real.rpow_le_rpow (by norm_num) hc.le (by norm_num)
        have hq' : (0.09047384 : ℝ) ≤ (0.0031308 : ℝ) ^ ((5 : ℝ) / 12) := by
          apply le_of_pow_le_pow_left₀ (n := 12) (by norm_num)
            (Real.rpow_nonneg (by norm_num) _)
          rw [rpow_five_twelfths_pow_twelve (by norm_num : (0:ℝ) ≤ 0.0031308)]
          norm_num
        linarith
      have hr : L ≤ 0.00313081 := by
        have htc : L ^ ((5 : ℝ) / 12) ≤ 0.095449936 / 1.055 := by linarith
        have h2 : (L ^ ((5 : ℝ) / 12)) ^ (12 : ℕ) ≤ (0.095449936 / 1.055 : ℝ) ^ (12 : ℕ) :=
          pow_le_pow_left₀ ht.le htc 12
        rw [rpow_five_twelfths_pow_twelve h0.le] at h2
        have h3 : ((0.095449936 / 1.055 : ℝ)) ^ (12 : ℕ) ≤ (0.00313081 : ℝ) ^ (5 : ℕ) := by
          norm_num
        exact le_of_pow_le_pow_left₀ (by norm_num) (by norm_num) (h2.trans h3)
      rw [abs_le]
      norm_num only at hV hc hq hr ⊢
      constructor <;> linarith
    · push_neg at hV
      rw [eotf_sRGB_ref_of_gt hV, srgb_power_inverse h0]
      norm_num

lemma smpte_roundtrip {L : ℝ} (h0 : 0 < L) (h1 : L < 1) :
    |eotf_SMPTE240M ScalingMode.reference (oetf_SMPTE240M ScalingMode.reference L) - L|
      ≤ 1e-7 := by
  by_cases hc : L < 0.0228
  · rw [oetf_SMPTE240M_ref_of_lt hc,
      eotf_SMPTE240M_ref_of_lt (lt_of_le_of_lt (by nlinarith : 4 * L ≤ 0.0912) smpte_thr_gt)]
    have hz : 4 * L / 4 - L = 0 := by ring
    rw [hz]; norm_num
  · push_neg at hc
    rw [oetf_SMPTE240M_ref_of_ge hc]
    have hbV : oetf_SMPTE240M ScalingMode.ignoreMode 0.0228
        ≤ 1.1115 * spow L 0.45 - 0.1115 := by
      rw [smpte_thr, spow_of_pos h0, show (0.45 : ℝ) = 9 / 20 by norm_num]
      have : (0.0228 : ℝ) ^ ((9 : ℝ) / 20) ≤ L ^ ((9 : ℝ) / 20) :=
        Real.rpow_le_rpow (by norm_num) hc (by norm_num)
      linarith
    rw [eotf_SMPTE240M_ref_of_ge hbV, smpte_power_inverse h0]
    norm_num

/-- C3: for every `x` in `(0,1)` the decode-after-encode round trip is
within absolute tolerance `1e-7` for both codec pairs, sRGB and
SMPTE 240M. -/
theorem transfer_function_roundtrip (x : ℝ) (h0 : 0 < x) (h1 : x < 1) :
    |eotf_sRGB ScalingMode.reference (eotf_inverse_sRGB ScalingMode.reference x) - x|
      ≤ 1e-7 ∧
    |eotf_SMPTE240M ScalingMode.reference (oetf_SMPTE240M ScalingMode.reference x) - x|
      ≤ 1e-7 :=
  ⟨srgb_roundtrip h0 h1, smpte_roundtrip h0 h1⟩

/-- Witness for C3 at `x = 1/2`. -/
theorem transfer_function_roundtrip_witness :
    (0 : ℝ) < 1 / 2 ∧ (1 / 2 : ℝ) < 1 ∧
    (|eotf_sRGB ScalingMode.reference (eotf_inverse_sRGB ScalingMode.reference (1 / 2)) - 1 / 2|
        ≤ 1e-7 ∧
      |eotf_SMPTE240M ScalingMode.reference (oetf_SMPTE240M ScalingMode.reference (1 / 2)) - 1 / 2|
        ≤ 1e-7) :=
  ⟨by norm_num, by norm_num,
    transfer_function_roundtrip (1 / 2) (by norm_num) (by norm_num)⟩

/-- Modelled from the spec: the ASTM D1925 yellowness index of
`colour.colorimetry.yellowness` (implementation not under src/; only its
tests are).  Per the spec: `100·(1.28·X − 1.06·Z)/Y`, wrapped in
reference-scale-100 domain/range scaling. -/
def yellowness_ASTMD1925 (m : ScalingMode) (XYZ : ℚ × ℚ × ℚ) : ℚ :=
  let X := to_domain_100 m XYZ.1
  let Y := to_domain_100 m XYZ.2.1
  let Z := to_domain_100 m XYZ.2.2
  from_range_100 m (100 * (1.28 * X - 1.06 * Z) / Y)

/-- Modelled from the spec: the alternative ASTM E313 yellowness index
(implementation not under src/).  The spec fixes it only as a
`(Z/Y)`-based constant-derived form whose contract is the test reference
outputs; those outputs determine the closed form `100·(1 − 0.847·Z/Y)`,
wrapped in reference-scale-100 domain/range scaling. -/
def yellowness_ASTME313_alternative (m : ScalingMode) (XYZ : ℚ × ℚ × ℚ) : ℚ :=
  let Y := to_domain_100 m XYZ.2.1
  let Z := to_domain_100 m XYZ.2.2
  from_range_100 m (100 * (1 - 0.847 * Z / Y))

/-- Modelled from the spec: the ASTM E313 yellowness index
(implementation not under src/): `C_x·X − C_z·Z` with caller-suppliable
coefficients, wrapped in reference-scale-100 domain/range scaling. -/
def yellowness_ASTME313 (m : ScalingMode) (XYZ : ℚ × ℚ × ℚ) (c_x c_z : ℚ) : ℚ :=
  let X := to_domain_100 m XYZ.1
  let Z := to_domain_100 m XYZ.2.2
  from_range_100 m (c_x * X - c_z * Z)

/-- Modelled from the spec: the canonical, case/format-insensitive form
of a method name used by the dispatcher's name matching. -/
def canonicalName (s : String) : String :=
  String.mk ((s.data.map Char.toLower).filter fun c => !(c == ' ' || c == '-' || c == '_'))

/-- Modelled from the spec: the usage-error message produced for an
unsupported yellowness method name; it names the offending value and
the valid set. -/
def yellownessMethodError (method : String) : String :=
  "\"" ++ method ++
    "\" method is invalid, it must be one of [\"ASTM D1925\", \"ASTM E313\"]!"

/-- Modelled from the spec: the `yellowness(XYZ, method)` dispatcher
(implementation not under src/): case/format-insensitive match of the
method against the canonical set, unknown method is a usage error, and
no silent fallback.  A raised usage error is an `Except.error`. -/
def yellowness (m : ScalingMode) (XYZ : ℚ × ℚ × ℚ) (method : String) : Except String ℚ :=
  if canonicalName method = canonicalName "ASTM D1925" then
    Except.ok (yellowness_ASTMD1925 m XYZ)
  else if canonicalName method = canonicalName "ASTM E313" then
    Except.ok (yellowness_ASTME313 m XYZ 1.2985 1.1335)
  else
    Except.error (yellownessMethodError method)

/-- C4: the ASTM D1925 formula computes `100·(1.28·X − 1.06·Z)/Y` on
reference-scale input, and its values at the three reference fixtures
match the recorded constants within floating tolerance. -/
theorem yellowness_ASTMD1925_values :
    (∀ X Y Z : ℚ, yellowness_ASTMD1925 ScalingMode.reference (X, Y, Z)
      = 100 * (1.28 * X - 1.06 * Z) / Y) ∧
    |yellowness_ASTMD1925 ScalingMode.reference (95, 100, 105)
      - 10.2999999999999971| ≤ 1e-7 ∧
    |yellowness_ASTMD1925 ScalingMode.reference (105, 100, 95)
      - 33.7000000000000028| ≤ 1e-7 ∧
    |yellowness_ASTMD1925 ScalingMode.reference (100, 100, 100) - 22| ≤ 1e-7 := by
  refine ⟨fun X Y Z => rfl, ?_, ?_, ?_⟩ <;>
    norm_num [yellowness_ASTMD1925, to_domain_100, from_range_100, abs_le]

/-- C5: each yellowness formula is a scaling homomorphism for the three
mode/factor pairs Reference/1, Normalized1/0.01 and Normalized100/1:
evaluating the formula in the mode on the factor-scaled input yields the
factor-scaled reference-mode result, for every tristimulus input (and,
for ASTM E313, every coefficient pair). -/
theorem yellowness_domain_range_scale (X Y Z c_x c_z : ℚ) :
    (yellowness_ASTMD1925 ScalingMode.reference (1 * X, 1 * Y, 1 * Z)
      = 1 * yellowness_ASTMD1925 ScalingMode.reference (X, Y, Z)) ∧
    (yellowness_ASTMD1925 ScalingMode.one (0.01 * X, 0.01 * Y, 0.01 * Z)
      = 0.01 * yellowness_ASTMD1925 ScalingMode.reference (X, Y, Z)) ∧
    (yellowness_ASTMD1925 ScalingMode.hundred (1 * X, 1 * Y, 1 * Z)
      = 1 * yellowness_ASTMD1925 ScalingMode.reference (X, Y, Z)) ∧
    (yellowness_ASTME313_alternative ScalingMode.reference (1 * X, 1 * Y, 1 * Z)
      = 1 * yellowness_ASTME313_alternative ScalingMode.reference (X, Y, Z)) ∧
    (yellowness_ASTME313_alternative ScalingMode.one (0.01 * X, 0.01 * Y, 0.01 * Z)
      = 0.01 * yellowness_ASTME313_alternative ScalingMode.reference (X, Y, Z)) ∧
    (yellowness_ASTME313_alternative ScalingMode.hundred (1 * X, 1 * Y, 1 * Z)
      = 1 * yellowness_ASTME313_alternative ScalingMode.reference (X, Y, Z)) ∧
    (yellowness_ASTME313 ScalingMode.reference (1 * X, 1 * Y, 1 * Z) c_x c_z
      = 1 * yellowness_ASTME313 ScalingMode.reference (X, Y, Z) c_x c_z) ∧
    (yellowness_ASTME313 ScalingMode.one (0.01 * X, 0.01 * Y, 0.01 * Z) c_x c_z
      = 0.01 * yellowness_ASTME313 ScalingMode.reference (X, Y, Z) c_x c_z) ∧
    (yellowness_ASTME313 ScalingMode.hundred (1 * X, 1 * Y, 1 * Z) c_x c_z
      = 1 * yellowness_ASTME313 ScalingMode.reference (X, Y, Z) c_x c_z) := by
  refine ⟨?_, ?_, ?_, ?_, ?_, ?_, ?_, ?_, ?_⟩ <;>
    simp only [yellowness_ASTMD1925, yellowness_ASTME313_alternative, yellowness_ASTME313,
      to_domain_100, from_range_100] <;>
    ring

/-- C8: calling the yellowness dispatcher with a method name outside the
canonical set (after case/format-insensitive matching) yields the usage
error, whose message contains the offending value and both valid names;
the call never returns a value, so there is no silent fallback to a
default method. -/
theorem yellowness_unknown_method (m : ScalingMode) (XYZ : ℚ × ℚ × ℚ) (method : String)
    (h1 : canonicalName method ≠ canonicalName "ASTM D1925")
    (h2 : canonicalName method ≠ canonicalName "ASTM E313") :
    yellowness m XYZ method = Except.error (yellownessMethodError method) ∧
    (∃ a b : String, yellownessMethodError method = a ++ method ++ b) ∧
    (∃ a b : String, yellownessMethodError method = a ++ "ASTM D1925" ++ b) ∧
    (∃ a b : String, yellownessMethodError method = a ++ "ASTM E313" ++ b) ∧
    (∀ r : ℚ, yellowness m XYZ method ≠ Except.ok r) := by
  have herr : yellowness m XYZ method = Except.error (yellownessMethodError method) := by
    simp [yellowness, h1, h2]
  refine ⟨herr, ⟨"\"", "\" method is invalid, it must be one of [\"ASTM D1925\", \"ASTM E313\"]!", rfl⟩,
    ⟨"\"" ++ method ++ "\" method is invalid, it must be one of [\"",
      "\", \"ASTM E313\"]!", ?_⟩,
    ⟨"\"" ++ method ++ "\" method is invalid, it must be one of [\"ASTM D1925\", \"",
      "\"]!", ?_⟩,
    fun r hr => by rw [herr] at hr; exact Except.noConfusion hr⟩ <;>
  · simp only [yellownessMethodError, String.append_assoc]
    congr 1

/-- Witness for C8 at the unknown method name "Bogus". -/
theorem yellowness_unknown_method_witness :
    yellowness ScalingMode.reference (1, 1, 1) "Bogus"
      = Except.error (yellownessMethodError "Bogus") :=
  (yellowness_unknown_method ScalingMode.reference (1, 1, 1) "Bogus"
    (by decide) (by decide)).1

/-- A 3×3 rational matrix in row-major order. -/
structure Mat3 where
  m00 : ℚ
  m01 : ℚ
  m02 : ℚ
  m10 : ℚ
  m11 : ℚ
  m12 : ℚ
  m20 : ℚ
  m21 : ℚ
  m22 : ℚ
deriving DecidableEq, Repr

/-- A rational 3-vector. -/
structure Vec3 where
  x : ℚ
  y : ℚ
  z : ℚ
deriving DecidableEq, Repr

def mul3 (A B : Mat3) : Mat3 :=
  ⟨A.m00 * B.m00 + A.m01 * B.m10 + A.m02 * B.m20,
   A.m00 * B.m01 + A.m01 * B.m11 + A.m02 * B.m21,
   A.m00 * B.m02 + A.m01 * B.m12 + A.m02 * B.m22,
   A.m10 * B.m00 + A.m11 * B.m10 + A.m12 * B.m20,
   A.m10 * B.m01 + A.m11 * B.m11 + A.m12 * B.m21,
   A.m10 * B.m02 + A.m11 * B.m12 + A.m12 * B.m22,
   A.m20 * B.m00 + A.m21 * B.m10 + A.m22 * B.m20,
   A.m20 * B.m01 + A.m21 * B.m11 + A.m22 * B.m21,
   A.m20 * B.m02 + A.m21 * B.m12 + A.m22 * B.m22⟩

def mulVec3 (A : Mat3) (v : Vec3) : Vec3 :=
  ⟨A.m00 * v.x + A.m01 * v.y + A.m02 * v.z,
   A.m10 * v.x + A.m11 * v.y + A.m12 * v.z,
   A.m20 * v.x + A.m21 * v.y + A.m22 * v.z⟩

def det3 (A : Mat3) : ℚ :=
  A.m00 * (A.m11 * A.m22 - A.m12 * A.m21)
    - A.m01 * (A.m10 * A.m22 - A.m12 * A.m20)
    + A.m02 * (A.m10 * A.m21 - A.m11 * A.m20)

def adjugate3 (A : Mat3) : Mat3 :=
  ⟨A.m11 * A.m22 - A.m12 * A.m21,
   -(A.m01 * A.m22 - A.m02 * A.m21),
   A.m01 * A.m12 - A.m02 * A.m11,
   -(A.m10 * A.m22 - A.m12 * A.m20),
   A.m00 * A.m22 - A.m02 * A.m20,
   -(A.m00 * A.m12 - A.m02 * A.m10),
   A.m10 * A.m21 - A.m11 * A.m20,
   -(A.m00 * A.m21 - A.m01 * A.m20),
   A.m00 * A.m11 - A.m01 * A.m10⟩

/-- The numeric matrix inverse (the `np.linalg.inv` step of the dataset
construction), realised exactly over `ℚ` by adjugate over determinant. -/
def inv3 (A : Mat3) : Mat3 :=
  let d := det3 A
  let C := adjugate3 A
  ⟨C.m00 / d, C.m01 / d, C.m02 / d,
   C.m10 / d, C.m11 / d, C.m12 / d,
   C.m20 / d, C.m21 / d, C.m22 / d⟩

def idMat3 : Mat3 := ⟨1, 0, 0, 0, 1, 0, 0, 0, 1⟩

/-- A 3×3 matrix agrees with the identity entrywise within absolute
tolerance `1e-7`. -/
def approxIdMat3 (A : Mat3) : Prop :=
  |A.m00 - 1| ≤ 1e-7 ∧ |A.m01| ≤ 1e-7 ∧ |A.m02| ≤ 1e-7 ∧
  |A.m10| ≤ 1e-7 ∧ |A.m11 - 1| ≤ 1e-7 ∧ |A.m12| ≤ 1e-7 ∧
  |A.m20| ≤ 1e-7 ∧ |A.m21| ≤ 1e-7 ∧ |A.m22 - 1| ≤ 1e-7

/-- The adjugate-over-determinant inverse is a left inverse whenever the
determinant does not vanish. -/
lemma inv3_mul_self {A : Mat3} (h : det3 A ≠ 0) : mul3 (inv3 A) A = idMat3 := by
  obtain ⟨a, b, c, d, e, f, g, h', i⟩ := A
  simp only [det3] at h
  simp only [mul3, inv3, adjugate3, det3, idMat3, Mat3.mk.injEq]
  refine ⟨?_, ?_, ?_, ?_, ?_, ?_, ?_, ?_, ?_⟩ <;> field_simp <;> ring

/-- Modelled from the spec: conversion of chromaticity coordinates
`(x, y)` to tristimulus values with unit luminance, `(x/y, 1, (1−x−y)/y)`,
used by the normalised-primary-matrix construction. -/
def xy_to_XYZ (c : ℚ × ℚ) : Vec3 :=
  ⟨c.1 / c.2, 1, (1 - c.1 - c.2) / c.2⟩

/-- The matrix whose columns are the unit-luminance tristimulus values
of the three primaries. -/
def primaryMatrix (r g b : ℚ × ℚ) : Mat3 :=
  ⟨(xy_to_XYZ r).x, (xy_to_XYZ g).x, (xy_to_XYZ b).x,
   (xy_to_XYZ r).y, (xy_to_XYZ g).y, (xy_to_XYZ b).y,
   (xy_to_XYZ r).z, (xy_to_XYZ g).z, (xy_to_XYZ b).z⟩

/-- The per-primary scale factors: solve `P · S = W` for the whitepoint
tristimulus `W`. -/
def npmScale (r g b w : ℚ × ℚ) : Vec3 :=
  mulVec3 (inv3 (primaryMatrix r g b)) (xy_to_XYZ w)

/-- Modelled from the spec: the normalised-primary-matrix construction
(`colour.models.rgb.normalised_primary_matrix` is not under src/): scale
each primary column so the weighted sum reproduces the whitepoint. -/
def normalised_primary_matrix (r g b w : ℚ × ℚ) : Mat3 :=
  let P := primaryMatrix r g b
  let S := npmScale r g b w
  ⟨P.m00 * S.x, P.m01 * S.y, P.m02 * S.z,
   P.m10 * S.x, P.m11 * S.y, P.m12 * S.z,
   P.m20 * S.x, P.m21 * S.y, P.m22 * S.z⟩

/-- Modelled from the spec: the CIE 1931 2-degree D65 whitepoint
chromaticity from the standard illuminant table (`CCS_ILLUMINANTS` is
not under src/). -/
def CCS_WHITEPOINT_D65 : ℚ × ℚ := (0.3127, 0.3290)

/-- The ITU-R BT.2020 primaries of `itur_bt_2020.py`. -/
def PRIMARIES_BT2020 : (ℚ × ℚ) × (ℚ × ℚ) × (ℚ × ℚ) :=
  ((0.7080, 0.2920), (0.1700, 0.7970), (0.1310, 0.0460))

def MATRIX_BT2020_TO_XYZ : Mat3 :=
  normalised_primary_matrix PRIMARIES_BT2020.1 PRIMARIES_BT2020.2.1
    PRIMARIES_BT2020.2.2 CCS_WHITEPOINT_D65

def MATRIX_XYZ_TO_BT2020 : Mat3 := inv3 MATRIX_BT2020_TO_XYZ

/-- The Protune Native primaries of `gopro.py`. -/
def PRIMARIES_PROTUNE_NATIVE : (ℚ × ℚ) × (ℚ × ℚ) × (ℚ × ℚ) :=
  ((0.698480461493841, 0.193026445370121),
   (0.329555378387345, 1.024596624134644),
   (0.108442631407675, -0.034678569754016))

def MATRIX_PROTUNE_NATIVE_TO_XYZ : Mat3 :=
  normalised_primary_matrix PRIMARIES_PROTUNE_NATIVE.1 PRIMARIES_PROTUNE_NATIVE.2.1
    PRIMARIES_PROTUNE_NATIVE.2.2 CCS_WHITEPOINT_D65

def MATRIX_XYZ_TO_PROTUNE_NATIVE : Mat3 := inv3 MATRIX_PROTUNE_NATIVE_TO_XYZ

lemma det_BT2020_ne_zero : det3 MATRIX_BT2020_TO_XYZ ≠ 0 := by
  norm_num [MATRIX_BT2020_TO_XYZ, normalised_primary_matrix, npmScale, primaryMatrix,
    xy_to_XYZ, mulVec3, inv3, adjugate3, det3, PRIMARIES_BT2020, CCS_WHITEPOINT_D65]

lemma det_ProtuneNative_ne_zero : det3 MATRIX_PROTUNE_NATIVE_TO_XYZ ≠ 0 := by
  norm_num [MATRIX_PROTUNE_NATIVE_TO_XYZ, normalised_primary_matrix, npmScale,
    primaryMatrix, xy_to_XYZ, mulVec3, inv3, adjugate3, det3, PRIMARIES_PROTUNE_NATIVE,
    CCS_WHITEPOINT_D65]

/-- C6: for both constructed colourspace datasets (ITU-R BT.2020 and
Protune Native) the product of the XYZ-to-primaries matrix (the numeric
inverse) with the primaries-to-XYZ matrix (the normalised-primary-matrix
construction) is the 3×3 identity within numeric tolerance. -/
theorem colourspace_matrix_product_identity :
    approxIdMat3 (mul3 MATRIX_XYZ_TO_BT2020 MATRIX_BT2020_TO_XYZ) ∧
    approxIdMat3 (mul3 MATRIX_XYZ_TO_PROTUNE_NATIVE MATRIX_PROTUNE_NATIVE_TO_XYZ) := by
  constructor
  · rw [MATRIX_XYZ_TO_BT2020, inv3_mul_self det_BT2020_ne_zero]
    norm_num [approxIdMat3, idMat3]
  · rw [MATRIX_XYZ_TO_PROTUNE_NATIVE, inv3_mul_self det_ProtuneNative_ne_zero]
    norm_num [approxIdMat3, idMat3]

/-- The host environment facts probed by `requirements.py`: whether each
optional import succeeds, whether the `ctlrender` executable runs and
prints its banner, and whether the Graphviz `fdp` executable is on the
PATH. -/
structure RequirementsEnv where
  ctlrenderAvailable : Bool
  matplotlibImportOk : Bool
  networkxImportOk : Bool
  opencolorioImportOk : Bool
  openimageioImportOk : Bool
  pandasImportOk : Bool
  pydotImportOk : Bool
  fdpOnPath : Bool
  tqdmImportOk : Bool
  trimeshImportOk : Bool
  xxhashImportOk : Bool
deriving DecidableEq, Repr

def installationGuideURL : String :=
  "https://www.colour-science.org/installation-guide/"

/-- The error message raised by the probes of `requirements.py` for a
missing capability (the interpolated exception text is abstracted
away): it names the capability and points at the installation guide. -/
def availabilityError (name : String) : String :=
  "\"" ++ name ++ "\" related API features are not available.\nSee the installation guide for more information: https://www.colour-science.org/installation-guide/"

/-- The distinct message of `is_networkx_installed`. -/
def networkxAvailabilityError : String :=
  "\"NetworkX\" related API features, e.g., the automatic colour conversion graph, are not available.\nPlease refer to the installation guide for more information: https://www.colour-science.org/installation-guide/"

/-- The `RuntimeError` message of `is_pydot_installed` when Graphviz is
missing. -/
def graphvizError : String :=
  "\"Graphviz\" is not installed, \"Pydot\" related API features are not available!\nSee the installation guide for more information: https://www.colour-science.org/installation-guide/"

/-- Probe `is_ctlrender_installed` of `requirements.py`: runs `ctlrender
-help`; a missing banner or executable returns `False` unless asked to
raise. -/
def is_ctlrender_installed (env : RequirementsEnv) (raise_exception : Bool) :
    Except String Bool :=
  if env.ctlrenderAvailable then Except.ok true
  else if raise_exception then Except.error (availabilityError "ctlrender")
  else Except.ok false

/-- Probe `is_matplotlib_installed` of `requirements.py`. -/
def is_matplotlib_installed (env : RequirementsEnv) (raise_exception : Bool) :
    Except String Bool :=
  if env.matplotlibImportOk then Except.ok true
  else if raise_exception then Except.error (availabilityError "Matplotlib")
  else Except.ok false

/-- Probe `is_networkx_installed` of `requirements.py`. -/
def is_networkx_installed (env : RequirementsEnv) (raise_exception : Bool) :
    Except String Bool :=
  if env.networkxImportOk then Except.ok true
  else if raise_exception then Except.error networkxAvailabilityError
  else Except.ok false

/-- Probe `is_opencolorio_installed` of `requirements.py`. -/
def is_opencolorio_installed (env : RequirementsEnv) (raise_exception : Bool) :
    Except String Bool :=
  if env.opencolorioImportOk then Except.ok true
  else if raise_exception then Except.error (availabilityError "OpenColorIO")
  else Except.ok false

/-- Probe `is_openimageio_installed` of `requirements.py`. -/
def is_openimageio_installed (env : RequirementsEnv) (raise_exception : Bool) :
    Except String Bool :=
  if env.openimageioImportOk then Except.ok true
  else if raise_exception then Except.error (availabilityError "OpenImageIO")
  else Except.ok false

/-- Probe `is_pandas_installed` of `requirements.py`. -/
def is_pandas_installed (env : RequirementsEnv) (raise_exception : Bool) :
    Except String Bool :=
  if env.pandasImportOk then Except.ok true
  else if raise_exception then Except.error (availabilityError "Pandas")
  else Except.ok false

/-- Probe `is_pydot_installed` of `requirements.py`.  A failed `import pydot`
raises only when `raise_exception` is set; otherwise control FALLS
THROUGH to the Graphviz `fdp` executable check, which returns `True`
when found.  Only when `fdp` is absent does the probe raise (Graphviz
message) or return `False`. -/
def is_pydot_installed (env : RequirementsEnv) (raise_exception : Bool) :
    Except String Bool :=
  if !env.pydotImportOk && raise_exception then Except.error (availabilityError "Pydot")
  else if env.fdpOnPath then Except.ok true
  else if raise_exception then Except.error graphvizError
  else Except.ok false

/-- Probe `is_tqdm_installed` of `requirements.py`. -/
def is_tqdm_installed (env : RequirementsEnv) (raise_exception : Bool) :
    Except String Bool :=
  if env.tqdmImportOk then Except.ok true
  else if raise_exception then Except.error (availabilityError "tqdm")
  else Except.ok false

/-- Probe `is_trimesh_installed` of `requirements.py`. -/
def is_trimesh_installed (env : RequirementsEnv) (raise_exception : Bool) :
    Except String Bool :=
  if env.trimeshImportOk then Except.ok true
  else if raise_exception then Except.error (availabilityError "Trimesh")
  else Except.ok false

/-- Probe `is_xxhash_installed` of `requirements.py`. -/
def is_xxhash_installed (env : RequirementsEnv) (raise_exception : Bool) :
    Except String Bool :=
  if env.xxhashImportOk then Except.ok true
  else if raise_exception then Except.error (availabilityError "xxhash")
  else Except.ok false

/-- A message mentions a fragment if it contains it verbatim. -/
def mentionsFragment (msg fragment : String) : Prop :=
  ∃ a b : String, msg = a ++ (fragment ++ b)

lemma availabilityError_mentions (name : String) :
    mentionsFragment (availabilityError name) name ∧
    mentionsFragment (availabilityError name) installationGuideURL := by
  constructor
  · exact ⟨"\"", "\" related API features are not available.\nSee the installation guide for more information: https://www.colour-science.org/installation-guide/",
      by simp [availabilityError, String.append_assoc]⟩
  · exact ⟨"\"" ++ (name ++ "\" related API features are not available.\nSee the installation guide for more information: "), "",
      by simp [availabilityError, installationGuideURL, String.append_assoc,
        String.append_empty]⟩

lemma networkx_mentions :
    mentionsFragment networkxAvailabilityError "NetworkX" ∧
    mentionsFragment networkxAvailabilityError installationGuideURL :=
  ⟨⟨"\"", "\" related API features, e.g., the automatic colour conversion graph, are not available.\nPlease refer to the installation guide for more information: https://www.colour-science.org/installation-guide/",
    by simp [networkxAvailabilityError]⟩,
   ⟨"\"NetworkX\" related API features, e.g., the automatic colour conversion graph, are not available.\nPlease refer to the installation guide for more information: ", "",
    by simp [networkxAvailabilityError, installationGuideURL, String.append_empty]⟩⟩

lemma graphviz_mentions :
    mentionsFragment graphvizError "Graphviz" ∧
    mentionsFragment graphvizError installationGuideURL :=
  ⟨⟨"\"", "\" is not installed, \"Pydot\" related API features are not available!\nSee the installation guide for more information: https://www.colour-science.org/installation-guide/",
    by simp [graphvizError]⟩,
   ⟨"\"Graphviz\" is not installed, \"Pydot\" related API features are not available!\nSee the installation guide for more information: ", "",
    by simp [graphvizError, installationGuideURL, String.append_empty]⟩⟩

/-- C9 counterexample: with pydot not importable but the Graphviz `fdp`
executable on the PATH, `is_pydot_installed` with `raise_exception`
left `False` returns `True`, not `False`, even though the pydot
capability is missing. -/
theorem pydot_probe_counterexample :
    (RequirementsEnv.mk true true true true true true false true true true true).pydotImportOk
        = false ∧
    is_pydot_installed
        (RequirementsEnv.mk true true true true true true false true true true true) false
      = Except.ok true :=
  ⟨rfl, rfl⟩

/-- C9 (amended): every optional-dependency probe other than
`is_pydot_installed` returns `False` exactly when its capability is
missing and `raise_exception` is `False`, and raises — with a message
naming the capability and a remediation pointer — if and only if the
capability is missing and `raise_exception` is `True`.
`is_pydot_installed` deviates when `raise_exception` is `False`: a failed
pydot import falls through to the Graphviz `fdp` executable check, whose
result is returned; with `raise_exception` `True` it raises the pydot
message when the import fails and the Graphviz message when `fdp` is
absent. -/
theorem probes_missing_capability_behaviour (env : RequirementsEnv) :
    (is_ctlrender_installed env false = Except.ok false ↔ env.ctlrenderAvailable = false) ∧
    (is_matplotlib_installed env false = Except.ok false ↔ env.matplotlibImportOk = false) ∧
    (is_networkx_installed env false = Except.ok false ↔ env.networkxImportOk = false) ∧
    (is_opencolorio_installed env false = Except.ok false ↔ env.opencolorioImportOk = false) ∧
    (is_openimageio_installed env false = Except.ok false ↔ env.openimageioImportOk = false) ∧
    (is_pandas_installed env false = Except.ok false ↔ env.pandasImportOk = false) ∧
    (is_tqdm_installed env false = Except.ok false ↔ env.tqdmImportOk = false) ∧
    (is_trimesh_installed env false = Except.ok false ↔ env.trimeshImportOk = false) ∧
    (is_xxhash_installed env false = Except.ok false ↔ env.xxhashImportOk = false) ∧
    (is_ctlrender_installed env true = Except.error (availabilityError "ctlrender")
      ↔ env.ctlrenderAvailable = false) ∧
    (is_matplotlib_installed env true = Except.error (availabilityError "Matplotlib")
      ↔ env.matplotlibImportOk = false) ∧
    (is_networkx_installed env true = Except.error networkxAvailabilityError
      ↔ env.networkxImportOk = false) ∧
    (is_opencolorio_installed env true = Except.error (availabilityError "OpenColorIO")
      ↔ env.opencolorioImportOk = false) ∧
    (is_openimageio_installed env true = Except.error (availabilityError "OpenImageIO")
      ↔ env.openimageioImportOk = false) ∧
    (is_pandas_installed env true = Except.error (availabilityError "Pandas")
      ↔ env.pandasImportOk = false) ∧
    (is_tqdm_installed env true = Except.error (availabilityError "tqdm")
      ↔ env.tqdmImportOk = false) ∧
    (is_trimesh_installed env true = Except.error (availabilityError "Trimesh")
      ↔ env.trimeshImportOk = false) ∧
    (is_xxhash_installed env true = Except.error (availabilityError "xxhash")
      ↔ env.xxhashImportOk = false) ∧
    (is_pydot_installed env false = Except.ok env.fdpOnPath) ∧
    (env.pydotImportOk = false →
      is_pydot_installed env true = Except.error (availabilityError "Pydot")) ∧
    (env.pydotImportOk = true → env.fdpOnPath = false →
      is_pydot_installed env true = Except.error graphvizError) ∧
    (env.pydotImportOk = true → env.fdpOnPath = true →
      is_pydot_installed env true = Except.ok true) ∧
    (∀ name : String, mentionsFragment (availabilityError name) name ∧
      mentionsFragment (availabilityError name) installationGuideURL) ∧
    (mentionsFragment networkxAvailabilityError "NetworkX" ∧
      mentionsFragment networkxAvailabilityError installationGuideURL) ∧
    (mentionsFragment graphvizError "Graphviz" ∧
      mentionsFragment graphvizError installationGuideURL) := by
  obtain ⟨c, m, n, o, oi, p, pd, f, t, tr, x⟩ := env
  refine ⟨?_, ?_, ?_, ?_, ?_, ?_, ?_, ?_, ?_, ?_, ?_, ?_, ?_, ?_, ?_, ?_, ?_, ?_,
    ?_, ?_, ?_, ?_, availabilityError_mentions, networkx_mentions, graphviz_mentions⟩
  · cases c <;> simp [is_ctlrender_installed]
  · cases m <;> simp [is_matplotlib_installed]
  · cases n <;> simp [is_networkx_installed]
  · cases o <;> simp [is_opencolorio_installed]
  · cases oi <;> simp [is_openimageio_installed]
  · cases p <;> simp [is_pandas_installed]
  · cases t <;> simp [is_tqdm_installed]
  · cases tr <;> simp [is_trimesh_installed]
  · cases x <;> simp [is_xxhash_installed]
  · cases c <;> simp [is_ctlrender_installed]
  · cases m <;> simp [is_matplotlib_installed]
  · cases n <;> simp [is_networkx_installed]
  · cases o <;> simp [is_opencolorio_installed]
  · cases oi <;> simp [is_openimageio_installed]
  · cases p <;> simp [is_pandas_installed]
  · cases t <;> simp [is_tqdm_installed]
  · cases tr <;> simp [is_trimesh_installed]
  · cases x <;> simp [is_xxhash_installed]
  · cases pd <;> cases f <;> simp [is_pydot_installed]
  · cases pd <;> cases f <;> simp [is_pydot_installed]
  · cases pd <;> cases f <;> simp [is_pydot_installed]
  · cases pd <;> cases f <;> simp [is_pydot_installed]

/-- Witness for C9 at a concrete environment with every capability
missing. -/
theorem probes_missing_capability_behaviour_witness :
    is_pydot_installed
        (RequirementsEnv.mk false false false false false false false false false false false)
        true
      = Except.error (availabilityError "Pydot") :=
  (probes_missing_capability_behaviour
    (RequirementsEnv.mk false false false false false false false false false false false)
    ).2.2.2.2.2.2.2.2.2.2.2.2.2.2.2.2.2.2.2.1 rfl

/-- C10: with `raise_exception` left `False`, `is_pydot_installed`
returns `True` if and only if the `fdp` executable is found on the PATH,
regardless of whether pydot itself can be imported; in particular the
probe reports `True` while pydot is absent. -/
theorem pydot_probe_fdp_only (env : RequirementsEnv) :
    (is_pydot_installed env false = Except.ok true ↔ env.fdpOnPath = true) ∧
    is_pydot_installed env false = Except.ok env.fdpOnPath ∧
    is_pydot_installed
        (RequirementsEnv.mk true true true true true true false true true true true) false
      = Except.ok true := by
  obtain ⟨c, m, n, o, oi, p, pd, f, t, tr, x⟩ := env
  refine ⟨?_, ?_, rfl⟩ <;> cases pd <;> cases f <;> simp [is_pydot_installed]

end Colour
